import Mathlib

/-
Verification of the peerchat session/room orchestration layer.

The definitions below are a shallow embedding of the Go sources:
  internal/app/model/message.go   (ChatMessage, LogMessage)
  internal/app/service/chat.go    (NewChatRoom, PubLoop, SubLoop, ClearHistory, UpdateUser)
  internal/app/storage/file.go    (NewFile, SaveMessage, LoadMessages)
  the service UI file             (NewUI input capture, handleCommand, changeRoom)
  the service p2p file            (handlePeerDiscovery)

Go machine-level details are modelled as follows: peer.ID values are
Strings; time.Time values are an abstract timestamp (Int, nanoseconds,
monotonic reading stripped as encoding does); the JSON text layer of
encoding/json is modelled at the level of a JSON value tree, since the
text-to-tree bijection is provided by the Go standard library, which is
external to this repository; fallible external calls (topic join,
subscribe, publish, file open, disk write) are modelled by explicit
environment records carrying their success or failure.
-/

/-- Timestamp models a Go time.Time value as it survives JSON encoding:
an absolute instant (nanoseconds), the monotonic reading being dropped
by marshalling. -/
abbrev Timestamp := Int

/-- ChatMessage mirrors model.ChatMessage in internal/app/model/message.go:
fields Message, SenderID, SenderName, CreatedAt with JSON tags
message, senderId, senderName, createdAt. -/
structure ChatMessage where
  message : String
  senderId : String
  senderName : String
  createdAt : Timestamp
deriving DecidableEq, Repr

/-- LogMessage mirrors model.LogMessage: a locally generated notice.
The Go field Prefix (JSON tag prefix) is named label here because the
Go spelling is a reserved word in Lean. -/
structure LogMessage where
  label : String
  message : String
deriving DecidableEq, Repr

/-- Json models the value tree handled by encoding/json, restricted to
the shapes this program produces and consumes. -/
inductive Json where
  | str : String → Json
  | num : Int → Json
  | obj : List (String × Json) → Json

/-- lookupField finds the first binding of a key in a JSON object body,
as json.Unmarshal matches struct tags. -/
def lookupField : List (String × Json) → String → Option Json
  | [], _ => none
  | (k, v) :: rest, key => if k = key then some v else lookupField rest key

/-- getStringField models json.Unmarshal of a string-typed struct field:
an absent key leaves the zero value "", a present key must be a JSON
string, any other shape makes Unmarshal fail. -/
def getStringField (fields : List (String × Json)) (key : String) : Option String :=
  match lookupField fields key with
  | none => some ""
  | some (Json.str s) => some s
  | some _ => none

/-- getTimeField models json.Unmarshal of the time.Time struct field:
an absent key leaves the zero instant, a present key must be a
timestamp (in the Go text form, an RFC3339 string; here the instant it
denotes), any other shape makes Unmarshal fail. -/
def getTimeField (fields : List (String × Json)) (key : String) : Option Timestamp :=
  match lookupField fields key with
  | none => some 0
  | some (Json.num t) => some t
  | some _ => none

/-- serializeChatMessage mirrors json.Marshal of model.ChatMessage in
PubLoop (chat.go line 94): an object with the four tagged fields in
struct order. -/
def serializeChatMessage (m : ChatMessage) : Json :=
  Json.obj [("message", Json.str m.message), ("senderId", Json.str m.senderId),
            ("senderName", Json.str m.senderName), ("createdAt", Json.num m.createdAt)]

/-- deserializeChatMessage mirrors json.Unmarshal into model.ChatMessage
in SubLoop (chat.go line 130) and storage LoadMessages (file.go line 80):
the payload must be an object and every present tagged field must have
the right shape, otherwise Unmarshal fails and none is returned. -/
def deserializeChatMessage : Json → Option ChatMessage
  | Json.obj fields =>
      match getStringField fields "message", getStringField fields "senderId",
            getStringField fields "senderName", getTimeField fields "createdAt" with
      | some msg, some sid, some sname, some t => some ⟨msg, sid, sname, t⟩
      | _, _, _, _ => none
  | _ => none

/-- PubSubRecord models the libp2p pubsub.Message as consumed by SubLoop:
the transport-level peer that delivered it (ReceivedFrom) and the raw
payload (Data, already at JSON-tree level). -/
structure PubSubRecord where
  receivedFrom : String
  data : Json

/-- SubAction is the observable effect of one SubLoop iteration on a
delivered record (chat.go lines 126 to 135). -/
inductive SubAction where
  | skipSelf
  | logContinue (l : LogMessage)
  | enqueue (m : ChatMessage)
deriving DecidableEq

/-- subLoopStep is the body of SubLoop for one record returned by
sub.Next (chat.go lines 126 to 135): drop the record when ReceivedFrom
equals the local peer id, otherwise unmarshal and either log a notice
or push the message onto the Inbound queue. -/
def subLoopStep (localId : String) (record : PubSubRecord) : SubAction :=
  if record.receivedFrom = localId then SubAction.skipSelf
  else
    match deserializeChatMessage record.data with
    | none => SubAction.logContinue ⟨"system", "could not unmarshal JSON"⟩
    | some cm => SubAction.enqueue cm

/-- PubEnv carries the outcomes of the external calls made by one
PubLoop iteration: json.Marshal, topic.Publish, storage.SaveMessage. -/
structure PubEnv where
  marshalOk : Bool
  publishOk : Bool
  saveOk : Bool
deriving DecidableEq

/-- PubStepResult is the observable effect of one PubLoop iteration:
whether the message was published, the line handed to the store (if
any), whether the store write succeeded, the notices emitted, and
whether the loop proceeds to the next message. -/
structure PubStepResult where
  published : Bool
  savedLine : Option Json
  persisted : Bool
  logs : List LogMessage
  continues : Bool

/-- pubLoopStep is the body of PubLoop for one message taken from the
Outbound queue (chat.go lines 93 to 106): marshal, publish, and only
after a successful publish call storage.SaveMessage, whose error is
discarded (line 105). Marshal and publish failures emit a notice and
continue. -/
def pubLoopStep (env : PubEnv) (m : ChatMessage) : PubStepResult :=
  if env.marshalOk = false then
    { published := false, savedLine := none, persisted := false,
      logs := [⟨"system", "could not marshal JSON"⟩], continues := true }
  else if env.publishOk = false then
    { published := false, savedLine := none, persisted := false,
      logs := [⟨"system", "could not publish to topic"⟩], continues := true }
  else
    { published := true, savedLine := some (serializeChatMessage m),
      persisted := env.saveOk, logs := [], continues := true }

/-- defaultUser mirrors the constant in chat.go line 17. -/
def defaultUser : String := "incognito"

/-- defaultRoom mirrors the constant in chat.go line 18. -/
def defaultRoom : String := "lobby"

/-- topicName mirrors the Sprintf at chat.go line 39: the fixed service
string with the room name appended. -/
def topicName (room : String) : String := "room-peerchat-" ++ room

/-- RoomEnv carries the outcomes of the external calls made by
NewChatRoom: PubSub.Join, topic.Subscribe, storage.NewFile, and
LoadHistory (storage.LoadMessages). -/
structure RoomEnv where
  joinOk : Bool
  subscribeOk : Bool
  storeOk : Bool
  loadResult : Except String (List ChatMessage)

/-- ChatRoom mirrors service.ChatRoom as established by NewChatRoom:
the topic actually joined, the (possibly defaulted) RoomName and
UserName, the room name the storage file was opened under, and the
replayed History. -/
structure ChatRoom where
  topic : String
  roomName : String
  userName : String
  storageRoom : String
  history : List ChatMessage
deriving DecidableEq, Repr

/-- newChatRoom mirrors NewChatRoom (chat.go lines 38 to 83). The topic
is joined with the raw room argument (line 39); the username and room
defaults are applied only afterwards (lines 49 to 54); the storage file
is opened under the defaulted room (line 55); the two loops are spawned
(lines 76 to 77) before LoadHistory runs (line 78). The returned Bool
records whether the loops were spawned by the time the function
returned. -/
def newChatRoom (env : RoomEnv) (username room : String) :
    Except String ChatRoom × Bool :=
  if env.joinOk = false then (Except.error "join pub sub", false)
  else if env.subscribeOk = false then (Except.error "subscribe room", false)
  else
    let topic := topicName room
    let username := if username = "" then defaultUser else username
    let room := if room = "" then defaultRoom else room
    if env.storeOk = false then (Except.error "create storage", false)
    else
      match env.loadResult with
      | Except.error _ => (Except.error "get history", true)
      | Except.ok h => (Except.ok ⟨topic, room, username, room, h⟩, true)

/-- UIState models the UI struct field that embeds the active ChatRoom
pointer, the only mutable binding changeRoom rewrites. -/
structure UIState where
  chatRoom : ChatRoom
deriving DecidableEq

/-- SwitchEvent records, in program order, the externally visible steps
taken by changeRoom. -/
inductive SwitchEvent where
  | constructedRoom (name : String)
  | reboundActive
  | exitedOldRoom
  | loggedNotice (l : LogMessage)
deriving DecidableEq

/-- changeRoom mirrors the UI changeRoom method (UI file lines 352 to
369): construct the new ChatRoom first; on error emit a notice and
return with the old room untouched; on success rebind the active
pointer and only then call Exit on the previous room. The event list is
in execution order. -/
def changeRoom (ui : UIState) (env : RoomEnv) (roomName : String) :
    UIState × List SwitchEvent :=
  match (newChatRoom env ui.chatRoom.userName roomName).1 with
  | Except.error e =>
      (ui, [SwitchEvent.loggedNotice ⟨"system", "could not change chat room - " ++ e⟩])
  | Except.ok newCr =>
      (⟨newCr⟩, [SwitchEvent.constructedRoom roomName, SwitchEvent.reboundActive,
                 SwitchEvent.exitedOldRoom])

/-- isWS models the whitespace class used by strings.TrimSpace for the
characters this input path can see. -/
def isWS (c : Char) : Bool :=
  c = ' ' || c = '\t' || c = '\n' || c = '\r' || c = '\x0b' || c = '\x0c'

/-- splitN2 mirrors strings.SplitN(line, " ", 2): cut at the first
space only; none means the separator does not occur. -/
def splitN2 : List Char → List Char × Option (List Char)
  | [] => ([], none)
  | c :: cs =>
      if c = ' ' then ([], some cs)
      else
        let r := splitN2 cs
        (c :: r.1, r.2)

/-- InputRoute is where the UI input capture sends a submitted line:
dropped, onto the command channel, or onto the message channel. -/
inductive InputRoute where
  | ignored
  | command (ty arg : List Char)
  | message (text : List Char)
deriving DecidableEq

/-- routeLine mirrors the input capture in NewUI (UI file lines 139 to
163): a line whose TrimSpace is empty is dropped; a line starting with
the sigil is SplitN in two, an absent second part becoming the empty
argument; any other line goes to the message channel whole. -/
def routeLine (cs : List Char) : InputRoute :=
  if cs.all isWS then InputRoute.ignored
  else if cs.head? = some '/' then
    let r := splitN2 cs
    InputRoute.command r.1 (r.2.getD [])
  else InputRoute.message cs

/-- CmdAction is the dispatch outcome of the UI handleCommand method. -/
inductive CmdAction where
  | stopApp
  | clearHistory
  | missingRoomNotice
  | roomNoop
  | joinRoom (name : List Char)
  | missingUserNotice
  | userNoop
  | updateUser (name : List Char)
  | unknownCmd (ty : List Char)
deriving DecidableEq

/-- handleCommand mirrors the UI handleCommand method (UI file lines
250 to 288), dispatching on the command name with the current room and
user names in scope. -/
def handleCommand (roomName userName : List Char) (ty arg : List Char) : CmdAction :=
  if ty = "/quit".data then CmdAction.stopApp
  else if ty = "/clear".data then CmdAction.clearHistory
  else if ty = "/room".data then
    if arg = [] then CmdAction.missingRoomNotice
    else if arg = roomName then CmdAction.roomNoop
    else CmdAction.joinRoom arg
  else if ty = "/user".data then
    if arg = [] then CmdAction.missingUserNotice
    else if arg = userName then CmdAction.userNoop
    else CmdAction.updateUser arg
  else CmdAction.unknownCmd ty

/-- outboundMessage mirrors the MsgInputs case of the UI start loop
(UI file lines 222 to 229): wrap the submitted line as a ChatMessage
stamped with the local peer id, the current display name and the
current time, and push it to Outbound. -/
def outboundMessage (peerId userName : String) (now : Timestamp)
    (text : List Char) : ChatMessage :=
  ⟨String.mk text, peerId, userName, now⟩

/-- AddrInfo models a discovered peer record (libp2p peer.AddrInfo):
its id and its known addresses. -/
structure AddrInfo where
  id : String
  addrs : List String
deriving DecidableEq

/-- eligiblePeer mirrors the skip test in handlePeerDiscovery (p2p file
line 115): records naming the local host or carrying no address are
dropped without an attempt. -/
def eligiblePeer (selfId : String) (pi : AddrInfo) : Bool :=
  !(pi.id = selfId : Bool) && !pi.addrs.isEmpty

/-- ConnState is the PeerConnector state: the remaining discovery
stream and the number of connection attempts in flight. -/
structure ConnState where
  pending : List AddrInfo
  active : Nat
deriving DecidableEq

/-- ConnStep is the small-step semantics of handlePeerDiscovery (p2p
file lines 110 to 137) running under errgroup with SetLimit: an
ineligible record is skipped; an eligible record spawns an attempt only
when fewer than the limit are in flight (g.Go blocks otherwise); an
attempt finishing releases its slot, whatever its outcome. -/
inductive ConnStep (selfId : String) (limit : Nat) : ConnState → ConnState → Prop where
  | skip (pi : AddrInfo) (rest : List AddrInfo) (a : Nat) :
      eligiblePeer selfId pi = false →
      ConnStep selfId limit ⟨pi :: rest, a⟩ ⟨rest, a⟩
  | spawn (pi : AddrInfo) (rest : List AddrInfo) (a : Nat) :
      eligiblePeer selfId pi = true → a < limit →
      ConnStep selfId limit ⟨pi :: rest, a⟩ ⟨rest, a + 1⟩
  | finish (pending : List AddrInfo) (a : Nat) :
      ConnStep selfId limit ⟨pending, a + 1⟩ ⟨pending, a⟩

/-- ConnReachable holds for every state the PeerConnector can be in
after consuming a prefix of the given discovery stream, starting with
no attempts in flight. -/
def ConnReachable (selfId : String) (limit : Nat) (stream : List AddrInfo)
    (s : ConnState) : Prop :=
  Relation.ReflTransGen (ConnStep selfId limit) ⟨stream, 0⟩ s

/-- saveMessageLine mirrors storage SaveMessage (file.go lines 47 to
60): append the already-serialized record as one new line at the end of
the per-room log. -/
def saveMessageLine (f : List (Option Json)) (j : Json) : List (Option Json) :=
  f ++ [some j]

/-- loadMessages mirrors storage LoadMessages (file.go lines 62 to 89):
scan the log line by line, silently skipping empty or corrupt lines
(modelled as none) and lines that fail to unmarshal. -/
def loadMessages (f : List (Option Json)) : List ChatMessage :=
  f.filterMap (fun line => line.bind deserializeChatMessage)

/-- Modelled from the spec: the storage File Clear method is called by
ChatRoom.ClearHistory (chat.go line 154) but its definition is not
among the provided sources. Spec sections 3 and 4.1: the persisted log
is never rewritten in place, and clear truncates/recreates it, so the
room log is left empty. -/
def clearStorage (_f : List (Option Json)) : List (Option Json) := []

/-- reopenAfterRestart models NewFile on an existing per-room log
(file.go line 35): the open mode O_APPEND with O_CREATE preserves
whatever content the file already has. -/
def reopenAfterRestart (f : List (Option Json)) : List (Option Json) := f

/-- C5: For all ChatMessage values m, deserializing the serialization
of m yields a value equal to m (round-trip over the wire/log JSON
encoding with fields message, senderId, senderName, createdAt). -/
theorem chatMessage_serialize_roundtrip (m : ChatMessage) :
    deserializeChatMessage (serializeChatMessage m) = some m := rfl

/-- C1 counterexample: the receive loop filters on the transport-level
ReceivedFrom, not on the payload senderId, so a record whose embedded
senderId equals the local identity but which arrives relayed from a
different peer is enqueued. Here the local id is QmLocal, the record
arrives from QmRemote, and the enqueued message carries
senderId = QmLocal. -/
theorem subLoop_self_senderId_enqueued :
    subLoopStep "QmLocal"
        ⟨"QmRemote", serializeChatMessage ⟨"hi", "QmLocal", "alice", 0⟩⟩
      = SubAction.enqueue ⟨"hi", "QmLocal", "alice", 0⟩
    ∧ (⟨"hi", "QmLocal", "alice", 0⟩ : ChatMessage).senderId = "QmLocal" :=
  ⟨rfl, rfl⟩

/-- C1 (amended): for every inbound record delivered by the
subscription, if the record's transport-level sender (ReceivedFrom)
equals the local peer identity then the receive loop skips it and
enqueues nothing. -/
theorem subLoop_receivedFrom_self_filter (localId : String)
    (record : PubSubRecord) (h : record.receivedFrom = localId) :
    subLoopStep localId record = SubAction.skipSelf := by
  simp [subLoopStep, h]

/-- Witness for the amended C1 theorem at a concrete echoed record. -/
theorem subLoop_receivedFrom_self_filter_witness :
    subLoopStep "QmLocal" ⟨"QmLocal", Json.num 0⟩ = SubAction.skipSelf :=
  subLoop_receivedFrom_self_filter "QmLocal" ⟨"QmLocal", Json.num 0⟩ rfl

/-- C4: for every message taken from the outbound queue, the line
handed to the MessageStore is exactly the serialized message and it is
handed over if and only if the publish succeeded, and a serialization
or publish failure emits exactly one LogMessage and the loop continues
with the next message. -/
theorem pubLoop_append_iff_publish (env : PubEnv) (m : ChatMessage) :
    ((pubLoopStep env m).savedLine = some (serializeChatMessage m)
        ↔ (pubLoopStep env m).published = true)
    ∧ ((pubLoopStep env m).published = false →
        (pubLoopStep env m).logs.length = 1
        ∧ (pubLoopStep env m).continues = true) := by
  cases env with
  | mk marshalOk publishOk saveOk =>
      cases marshalOk <;> cases publishOk <;> simp [pubLoopStep]

/-- Witness for the C4 theorem at a concrete failing publish. -/
theorem pubLoop_append_iff_publish_witness :
    (pubLoopStep ⟨true, false, true⟩ ⟨"hi", "QmLocal", "alice", 0⟩).logs.length = 1
    ∧ (pubLoopStep ⟨true, false, true⟩ ⟨"hi", "QmLocal", "alice", 0⟩).continues = true :=
  (pubLoop_append_iff_publish ⟨true, false, true⟩ ⟨"hi", "QmLocal", "alice", 0⟩).2 rfl

/-- C10: if the publish succeeds but the MessageStore append fails, the
error is silently discarded: no LogMessage is emitted, the loop
continues, and the message was delivered to the topic but not
persisted. -/
theorem pubLoop_silent_persist_failure (m : ChatMessage) :
    (pubLoopStep ⟨true, true, false⟩ m).published = true
    ∧ (pubLoopStep ⟨true, true, false⟩ m).persisted = false
    ∧ (pubLoopStep ⟨true, true, false⟩ m).logs = []
    ∧ (pubLoopStep ⟨true, true, false⟩ m).continues = true := by
  simp [pubLoopStep]

/-- C2: if the topic join, the subscribe, or the local store open
fails, NewChatRoom returns an error and no partial session is left
active: no ChatRoom value is produced and neither loop was spawned. -/
theorem newChatRoom_construction_failure (env : RoomEnv) (u r : String)
    (h : env.joinOk = false ∨ env.subscribeOk = false ∨ env.storeOk = false) :
    (∃ e, (newChatRoom env u r).1 = Except.error e)
    ∧ (newChatRoom env u r).2 = false := by
  rcases h with h | h | h <;>
    cases hj : env.joinOk <;> cases hs : env.subscribeOk <;>
      simp_all [newChatRoom]

/-- Witness for the C2 theorem at a concrete failing subscribe. -/
theorem newChatRoom_construction_failure_witness :
    (∃ e, (newChatRoom ⟨true, false, true, Except.ok []⟩ "bob" "games").1
        = Except.error e)
    ∧ (newChatRoom ⟨true, false, true, Except.ok []⟩ "bob" "games").2 = false :=
  newChatRoom_construction_failure ⟨true, false, true, Except.ok []⟩ "bob" "games"
    (Or.inr (Or.inl rfl))

/-- C3: the room switch is all-or-nothing: when construction of the new
ChatRoom fails, a notice is logged and the previous session stays bound
and untouched with no exit performed; when it succeeds, the event order
is construction, then rebinding of the active pointer, then exit of the
previous session, and the new session becomes active. -/
theorem changeRoom_all_or_nothing (ui : UIState) (env : RoomEnv) (roomName : String) :
    (∀ e, (newChatRoom env ui.chatRoom.userName roomName).1 = Except.error e →
        (changeRoom ui env roomName).1 = ui
        ∧ (changeRoom ui env roomName).2
            = [SwitchEvent.loggedNotice ⟨"system", "could not change chat room - " ++ e⟩])
    ∧ (∀ cr, (newChatRoom env ui.chatRoom.userName roomName).1 = Except.ok cr →
        (changeRoom ui env roomName).1.chatRoom = cr
        ∧ (changeRoom ui env roomName).2
            = [SwitchEvent.constructedRoom roomName, SwitchEvent.reboundActive,
               SwitchEvent.exitedOldRoom]) := by
  constructor
  · intro e he
    simp [changeRoom, he]
  · intro cr hcr
    simp [changeRoom, hcr]

/-- Witness for the C3 theorem: a concrete failed switch leaves the
concrete previous state intact and logs a notice. -/
theorem changeRoom_all_or_nothing_witness :
    (changeRoom ⟨⟨"room-peerchat-lobby", "lobby", "bob", "lobby", []⟩⟩
        ⟨false, true, true, Except.ok []⟩ "games").1
      = ⟨⟨"room-peerchat-lobby", "lobby", "bob", "lobby", []⟩⟩
    ∧ (changeRoom ⟨⟨"room-peerchat-lobby", "lobby", "bob", "lobby", []⟩⟩
        ⟨false, true, true, Except.ok []⟩ "games").2
      = [SwitchEvent.loggedNotice
          ⟨"system", "could not change chat room - " ++ "join pub sub"⟩] :=
  (changeRoom_all_or_nothing ⟨⟨"room-peerchat-lobby", "lobby", "bob", "lobby", []⟩⟩
      ⟨false, true, true, Except.ok []⟩ "games").1 "join pub sub" rfl

/-- C7 is contradicted by the code: NewChatRoom joins the topic with
the raw room argument (chat.go line 39) and only afterwards applies the
lobby default (line 53), so a session created with the empty room name
reports RoomName lobby and opens lobby's storage file yet sits on the
topic room-peerchat- which differs from lobby's topic
room-peerchat-lobby. This theorem evaluates the constructor at the
failing input (room name empty versus lobby). -/
theorem newChatRoom_empty_room_topic_bug :
    (newChatRoom ⟨true, true, true, Except.ok []⟩ "bob" "").1
      = Except.ok ⟨"room-peerchat-", "lobby", "bob", "lobby", []⟩
    ∧ (newChatRoom ⟨true, true, true, Except.ok []⟩ "bob" "lobby").1
      = Except.ok ⟨"room-peerchat-lobby", "lobby", "bob", "lobby", []⟩
    ∧ topicName "" ≠ topicName "lobby" := by
  refine ⟨rfl, rfl, ?_⟩
  decide

/-- Helper: strings.SplitN with limit 2 cuts exactly at the first
space, leaving everything after it (spaces included) as one piece. -/
theorem splitN2_append (a b : List Char) (h : ' ' ∉ a) :
    splitN2 (a ++ ' ' :: b) = (a, some b) := by
  induction a with
  | nil => simp [splitN2]
  | cons c cs ih =>
      have hc : ¬ c = ' ' := fun hc => h (hc ▸ List.mem_cons_self c cs)
      have hcs : ' ' ∉ cs := fun hm => h (List.mem_cons_of_mem c hm)
      have hne : ¬ c = ' ' := hc
      simp [splitN2, hne, ih hcs]

/-- C6 counterexample: the input "/room  " (two trailing spaces) does
not yield a missing-room-name notice: SplitN cuts at the first space
only, so the argument is the single-space string, which is nonempty,
and handleCommand attempts a switch to the room named " ". -/
theorem room_trailing_space_attempts_switch :
    routeLine "/room  ".data = InputRoute.command "/room".data " ".data
    ∧ handleCommand "lobby".data "bob".data "/room".data " ".data
        = CmdAction.joinRoom " ".data
    ∧ CmdAction.joinRoom " ".data ≠ CmdAction.missingRoomNotice := by
  refine ⟨rfl, rfl, ?_⟩
  decide

/-- C6 (amended): a sigil line is split at most once, so the rest of
the line after the first space, spaces included, is the argument; the
input "/room" with no argument yields the missing-room-name notice and
no switch attempt; a line without the sigil such as "hello world" is
routed to the message channel whole and queued as a ChatMessage whose
text equals the whole line. -/
theorem command_parse_amended (a0 b roomName userName : List Char)
    (peerId userName2 : String) (now : Timestamp) (h : ' ' ∉ a0) :
    routeLine (('/' :: a0) ++ ' ' :: b) = InputRoute.command ('/' :: a0) b
    ∧ routeLine "/room".data = InputRoute.command "/room".data []
    ∧ handleCommand roomName userName "/room".data [] = CmdAction.missingRoomNotice
    ∧ routeLine "hello world".data = InputRoute.message "hello world".data
    ∧ (outboundMessage peerId userName2 now "hello world".data).message
        = "hello world" := by
  refine ⟨?_, rfl, rfl, rfl, rfl⟩
  have hs : ' ' ∉ ('/' :: a0) := by
    intro hm
    rcases List.mem_cons.mp hm with h1 | h1
    · exact absurd h1 (by decide)
    · exact h h1
  have hws : isWS '/' = false := by decide
  have hsplit : splitN2 ('/' :: (a0 ++ ' ' :: b)) = ('/' :: a0, some b) :=
    splitN2_append ('/' :: a0) b hs
  simp [routeLine, hws, hsplit]

/-- Witness for the amended C6 theorem at the concrete line
"/room my cool room". -/
theorem command_parse_amended_witness :
    routeLine (('/' :: "room".data) ++ ' ' :: "my cool room".data)
        = InputRoute.command ('/' :: "room".data) "my cool room".data
    ∧ routeLine "/room".data = InputRoute.command "/room".data []
    ∧ handleCommand "lobby".data "bob".data "/room".data []
        = CmdAction.missingRoomNotice
    ∧ routeLine "hello world".data = InputRoute.message "hello world".data
    ∧ (outboundMessage "QmLocal" "bob" 0 "hello world".data).message
        = "hello world" :=
  command_parse_amended "room".data "my cool room".data "lobby".data "bob".data
    "QmLocal" "bob" 0 (by decide)

/-- Helper: every single PeerConnector step keeps the number of
in-flight attempts at or below the limit. -/
theorem connStep_active_le {selfId : String} {limit : Nat} {s t : ConnState}
    (h : ConnStep selfId limit s t) (hs : s.active ≤ limit) : t.active ≤ limit := by
  cases h with
  | skip pi rest a hskip => exact hs
  | spawn pi rest a he hlt => exact hlt
  | finish pending a => exact le_trans (Nat.le_succ a) hs

/-- C8: for every discovery stream of length at least 5, every state
the PeerConnector can reach from the empty initial state has at most 5
connection attempts in flight: an eligible record can only spawn an
attempt when a slot below the cap is free, so excess discoveries wait. -/
theorem peerConnector_bounded_concurrency (selfId : String)
    (stream : List AddrInfo) (s : ConnState) (_hlen : 5 ≤ stream.length)
    (h : ConnReachable selfId 5 stream s) : s.active ≤ 5 := by
  have h2 : Relation.ReflTransGen (ConnStep selfId 5) ⟨stream, 0⟩ s := h
  clear h
  induction h2 with
  | refl => exact Nat.zero_le 5
  | tail _ hstep ih => exact connStep_active_le hstep ih

/-- Witness for the C8 theorem: a five-record stream, one spawn step
taken, one attempt in flight. -/
theorem peerConnector_bounded_concurrency_witness :
    5 ≤ ([⟨"a", ["x"]⟩, ⟨"b", ["x"]⟩, ⟨"c", ["x"]⟩, ⟨"d", ["x"]⟩,
          ⟨"e", ["x"]⟩] : List AddrInfo).length
    ∧ (⟨[⟨"b", ["x"]⟩, ⟨"c", ["x"]⟩, ⟨"d", ["x"]⟩, ⟨"e", ["x"]⟩], 1⟩ :
        ConnState).active ≤ 5 :=
  ⟨by decide,
   peerConnector_bounded_concurrency "self"
     [⟨"a", ["x"]⟩, ⟨"b", ["x"]⟩, ⟨"c", ["x"]⟩, ⟨"d", ["x"]⟩, ⟨"e", ["x"]⟩]
     ⟨[⟨"b", ["x"]⟩, ⟨"c", ["x"]⟩, ⟨"d", ["x"]⟩, ⟨"e", ["x"]⟩], 1⟩
     (by decide)
     (Relation.ReflTransGen.single
       (ConnStep.spawn ⟨"a", ["x"]⟩
         [⟨"b", ["x"]⟩, ⟨"c", ["x"]⟩, ⟨"d", ["x"]⟩, ⟨"e", ["x"]⟩] 0
         (by decide) (by decide)))⟩

/-- C9: the /clear command dispatches to the history-clearing path, and
clearing truncates the persisted log, so after a process restart
reopens the same per-room file, replay (loadAll) returns the empty
sequence. -/
theorem clear_then_restart_empty_history :
    (∀ roomName userName, handleCommand roomName userName "/clear".data []
        = CmdAction.clearHistory)
    ∧ ∀ f, loadMessages (reopenAfterRestart (clearStorage f)) = [] :=
  ⟨fun _ _ => rfl, fun _ => rfl⟩
